import Mathlib

/-!
Shallow embedding of the `vast-enum` Rust crate (src/lib.rs) and proofs of
the specification's testable properties.

The crate defines one type, `VastEnum<Enum, Repr>`: a `#[repr(transparent)]`
tuple struct holding a single `Repr` value together with a zero-sized
`PhantomData<Enum>` marker.  The enum/integer conversions are supplied
externally through the trait bounds `Enum: Into<Repr>` and
`Repr: TryInto<Enum>` (wrapped as `EnumRepr<Enum>`); here they are passed
explicitly as an `EnumConv` record.
-/

/-- Embedding of the externally supplied conversion capabilities required by
the trait bounds `Enum: Into<Repr>` and `Repr: EnumRepr<Enum>` (which wraps
`TryInto<Enum>`).  `into` is the total variant-to-integer encoding;
`try_into` is the partial integer-to-variant decoding.  The Rust `TryInto`
returns a `Result` whose error detail the wrapper immediately discards with
`.ok()`, so the `Option`-valued image is the faithful observable. -/
structure EnumConv (Enum Repr : Type) where
  into : Enum → Repr
  try_into : Repr → Option Enum

/-- Embedding of `pub struct VastEnum<Enum, Repr>(Repr, PhantomData<Enum>)`.
The `PhantomData<Enum>` field is a zero-sized compile-time marker carrying no
runtime data; it is modelled by the phantom type parameter `Enum` alone. -/
structure VastEnum (Enum Repr : Type) where
  val : Repr

namespace VastEnum

variable {Enum Repr EnumNew EnumOut : Type}

/-- Embedding of `VastEnum::from_int`: `VastEnum(discriminant, PhantomData)`. -/
def from_int (discriminant : Repr) : VastEnum Enum Repr :=
  ⟨discriminant⟩

/-- Embedding of `VastEnum::int`: `self.0`. -/
def int (self : VastEnum Enum Repr) : Repr :=
  self.val

/-- Embedding of a write through `VastEnum::int_mut`
(`*enum_.int_mut() = r`): `int_mut` hands out `&mut self.0`, so writing
through it replaces the stored integer and nothing else. -/
def write_int (_self : VastEnum Enum Repr) (r : Repr) : VastEnum Enum Repr :=
  ⟨r⟩

/-- Embedding of `VastEnum::cast`: `VastEnum::from_int(self.0)`. -/
def cast (self : VastEnum Enum Repr) : VastEnum EnumNew Repr :=
  from_int self.val

/-- Embedding of `VastEnum::from_variant`: `VastEnum(variant.into(), PhantomData)`. -/
def from_variant (c : EnumConv Enum Repr) (variant : Enum) : VastEnum Enum Repr :=
  ⟨c.into variant⟩

/-- Embedding of `VastEnum::variant`: `self.0.try_into().ok()`. -/
def variant (c : EnumConv Enum Repr) (self : VastEnum Enum Repr) : Option Enum :=
  c.try_into self.val

/-- Embedding of `VastEnum::is_valid`: `self.variant().is_some()`. -/
def is_valid (c : EnumConv Enum Repr) (self : VastEnum Enum Repr) : Bool :=
  (variant c self).isSome

/-- Embedding of `VastEnum::map`: match on `self.variant()`, re-encode with
`from_variant` on success, fall back to `cast` on failure. -/
def map (c : EnumConv Enum Repr) (cOut : EnumConv EnumOut Repr)
    (f : Enum → EnumOut) (self : VastEnum Enum Repr) : VastEnum EnumOut Repr :=
  match variant c self with
  | some enum_ => from_variant cOut (f enum_)
  | none => cast self

/-- Embedding of the derived `PartialEq`/`Eq` (`derivative(Eq, PartialEq)`
with `bound = ""`): field-wise comparison of `(self.0, self.1)`, where the
`PhantomData` field always compares equal, so equality is decided purely by
the stored integer. -/
def beq [DecidableEq Repr] (a b : VastEnum Enum Repr) : Bool :=
  decide (a.val = b.val)

/-- Embedding of the derived `Ord`/`PartialOrd`: lexicographic field-wise
comparison where the `PhantomData` field always compares `Equal`, so the
result is exactly the comparison of the stored integers. -/
def cmp (cmpR : Repr → Repr → Ordering) (a b : VastEnum Enum Repr) : Ordering :=
  cmpR a.val b.val

/-- Embedding of the derived `Hash`: field-wise hashing where the
`PhantomData` field feeds no bytes to the hasher, so the hash is exactly the
hash of the stored integer. -/
def hash (hR : Repr → Nat) (a : VastEnum Enum Repr) : Nat :=
  hR a.val

/-- Embedding of the derived `Default` (`derivative(Default(bound = ""))`):
each field takes its own default, `Repr::default()` for the integer and the
(dataless) default of `PhantomData`; no bound is placed on `Enum`. -/
def default [Inhabited Repr] : VastEnum Enum Repr :=
  ⟨(Inhabited.default : Repr)⟩

/-- Embedding of the `Debug` impl: a debug tuple named `VastEnum` holding
`"{int}: {variant}"` when the discriminant decodes and just the raw integer
otherwise. -/
def debug_fmt (c : EnumConv Enum Repr) (showR : Repr → String)
    (showE : Enum → String) (self : VastEnum Enum Repr) : String :=
  match variant c self with
  | some enum_ => "VastEnum(" ++ showR self.val ++ ": " ++ showE enum_ ++ ")"
  | none => "VastEnum(" ++ showR self.val ++ ")"

/-- Modelled from the spec: the `Serialize` impl produced by
`#[derive(Serialize)]` with `#[serde(skip)]` on the `PhantomData` field is
derive-generated code not present in the repository source; per the spec it
"reads and writes only the raw integer", so serialization emits exactly the
stored `Repr` value. -/
def serialize (self : VastEnum Enum Repr) : Repr :=
  self.val

/-- Modelled from the spec: the `Deserialize` impl produced by
`#[derive(Deserialize)]` with `#[serde(skip)]` on the `PhantomData` field is
derive-generated code not present in the repository source; per the spec no
decoding occurs, so deserialization rebuilds the wrapper around exactly the
integer read from the input. -/
def deserialize (r : Repr) : VastEnum Enum Repr :=
  ⟨r⟩

end VastEnum

/-!
Panic-freedom model.  Rust expressions that can panic (unwrap, indexing,
overflowing arithmetic, explicit panics) would translate to the error branch
of this monad; every expression in the crate's method bodies is a
constructor application, field access, match, or a call to the bound
`Into`/`TryInto` methods (which return plain values / `Result`s and cannot
panic), so each translated body is a pure composition that never reaches the
error branch.
-/

/-- Result monad for the panic-freedom model: `Except.error` marks a panic
or abort, `Except.ok` a normal return. -/
abbrev RustM (α : Type) : Type :=
  Except Unit α

namespace VastEnum

variable {Enum Repr EnumNew EnumOut : Type}

/-- Panic-monad translation of `VastEnum::from_int`. -/
def from_int_run (discriminant : Repr) : RustM (VastEnum Enum Repr) :=
  Except.ok (from_int discriminant)

/-- Panic-monad translation of `VastEnum::int`. -/
def int_run (self : VastEnum Enum Repr) : RustM Repr :=
  Except.ok self.val

/-- Panic-monad translation of a write through `VastEnum::int_mut`. -/
def write_int_run (self : VastEnum Enum Repr) (r : Repr) : RustM (VastEnum Enum Repr) :=
  Except.ok (write_int self r)

/-- Panic-monad translation of `VastEnum::cast`. -/
def cast_run (self : VastEnum Enum Repr) : RustM (VastEnum EnumNew Repr) :=
  Except.ok (cast self)

/-- Panic-monad translation of `VastEnum::from_variant`. -/
def from_variant_run (c : EnumConv Enum Repr) (v : Enum) : RustM (VastEnum Enum Repr) :=
  Except.ok (from_variant c v)

/-- Panic-monad translation of `VastEnum::variant`: the `try_into` call
returns a `Result` by value (it cannot panic) and `.ok()` is a total
conversion, so the decode failure surfaces as `none` inside a normal
return, never as a panic. -/
def variant_run (c : EnumConv Enum Repr) (self : VastEnum Enum Repr) : RustM (Option Enum) :=
  Except.ok (variant c self)

/-- Panic-monad translation of `VastEnum::is_valid`. -/
def is_valid_run (c : EnumConv Enum Repr) (self : VastEnum Enum Repr) : RustM Bool :=
  do
    let v ← variant_run c self
    Except.ok v.isSome

/-- Panic-monad translation of `VastEnum::map`. -/
def map_run (c : EnumConv Enum Repr) (cOut : EnumConv EnumOut Repr)
    (f : Enum → EnumOut) (self : VastEnum Enum Repr) : RustM (VastEnum EnumOut Repr) :=
  do
    let v ← variant_run c self
    match v with
    | some enum_ => from_variant_run cOut (f enum_)
    | none => cast_run self

/-- Panic-monad translation of the derived `PartialEq::eq`. -/
def beq_run [DecidableEq Repr] (a b : VastEnum Enum Repr) : RustM Bool :=
  Except.ok (beq a b)

/-- Panic-monad translation of the derived `Ord::cmp`. -/
def cmp_run (cmpR : Repr → Repr → Ordering) (a b : VastEnum Enum Repr) : RustM Ordering :=
  Except.ok (cmp cmpR a b)

/-- Panic-monad translation of the derived `Hash::hash`. -/
def hash_run (hR : Repr → Nat) (a : VastEnum Enum Repr) : RustM Nat :=
  Except.ok (hash hR a)

/-- Panic-monad translation of the `Debug` impl. -/
def debug_fmt_run (c : EnumConv Enum Repr) (showR : Repr → String)
    (showE : Enum → String) (self : VastEnum Enum Repr) : RustM String :=
  do
    let v ← variant_run c self
    match v with
    | some enum_ => Except.ok ("VastEnum(" ++ showR self.val ++ ": " ++ showE enum_ ++ ")")
    | none => Except.ok ("VastEnum(" ++ showR self.val ++ ")")

end VastEnum

/-!
Concrete instances used as witnesses: the `Color` enumeration from the
crate's doc example (`Red = 0, Yellow = 1, Green = 2` over `u8`), and a
second enumeration `Shade` (`Light = 1, Dark = 2`) for which the
discriminant `0` is invalid.  The `u8` discriminants are modelled as `Nat`
values; no operation of the crate performs arithmetic on them, so the
embedding is exact on the values that occur.
-/

inductive Color : Type
  | Red
  | Yellow
  | Green
deriving DecidableEq

/-- Total variant-to-integer encoding of `Color` (`IntoPrimitive`). -/
def Color.into : Color → Nat
  | .Red => 0
  | .Yellow => 1
  | .Green => 2

/-- Partial integer-to-variant decoding of `Color` (`TryFromPrimitive`). -/
def Color.try_from : Nat → Option Color
  | 0 => some .Red
  | 1 => some .Yellow
  | 2 => some .Green
  | _ => none

/-- The conversion pair for `Color`. -/
def Color.conv : EnumConv Color Nat :=
  ⟨Color.into, Color.try_from⟩

inductive Shade : Type
  | Light
  | Dark
deriving DecidableEq

/-- Total variant-to-integer encoding of `Shade`. -/
def Shade.into : Shade → Nat
  | .Light => 1
  | .Dark => 2

/-- Partial integer-to-variant decoding of `Shade`; `0` is invalid. -/
def Shade.try_from : Nat → Option Shade
  | 1 => some .Light
  | 2 => some .Dark
  | _ => none

/-- The conversion pair for `Shade`. -/
def Shade.conv : EnumConv Shade Nat :=
  ⟨Shade.into, Shade.try_from⟩

/-- A conversion pair is lawful when decoding inverts encoding: exactly the
contract that `num_enum`-style derived conversions satisfy (`e.into()` is
`e`'s discriminant and `try_from` recognizes every discriminant). -/
def EnumConv.Lawful {Enum Repr : Type} (c : EnumConv Enum Repr) : Prop :=
  ∀ e : Enum, c.try_into (c.into e) = some e

/-- C1: wrapping an arbitrary integer with `from_int` stores it verbatim —
no validation, normalization, or mutation — and `int` returns exactly the
stored integer, so `from_int(v).int() == v` for every `Repr` value `v`. -/
theorem from_int_int_roundtrip (Enum Repr : Type) (v : Repr) :
    (VastEnum.from_int v : VastEnum Enum Repr).int = v :=
  rfl

/-- C3: `cast` rebuilds the wrapper from the same stored integer under the
new enumeration tag, so `w.cast::<EnumB>().int() == w.int()` always, with no
decoding or re-encoding involved. -/
theorem cast_preserves_int (EnumA EnumB Repr : Type) (w : VastEnum EnumA Repr) :
    (VastEnum.cast w : VastEnum EnumB Repr).int = w.int :=
  rfl

/-- C2: when the stored integer does not decode (`is_valid() == false`),
`map` takes the `None` branch of the match on `variant()` and behaves
exactly like `cast`, so the raw integer passes through unchanged:
`w.map(f).int() == w.int()`. -/
theorem map_invalid_preserves_int {Enum EnumOut Repr : Type}
    (c : EnumConv Enum Repr) (cOut : EnumConv EnumOut Repr)
    (f : Enum → EnumOut) (w : VastEnum Enum Repr)
    (h : VastEnum.is_valid c w = false) :
    (VastEnum.map c cOut f w).int = w.int := by
  have hnone : VastEnum.variant c w = none := by
    cases hv : VastEnum.variant c w with
    | none => rfl
    | some e =>
        exfalso
        rw [VastEnum.is_valid, hv] at h
        simp at h
  rw [VastEnum.map, hnone]
  rfl

/-- Witness for C2 at the doc-example scenario: `from_int(5)` over `Color`
is invalid, and mapping it (to `Shade`) leaves the stored integer `5`. -/
theorem map_invalid_preserves_int_witness :
    (VastEnum.map Color.conv Shade.conv (fun _ => Shade.Light)
      (VastEnum.from_int 5)).int = (VastEnum.from_int 5 : VastEnum Color Nat).int :=
  map_invalid_preserves_int Color.conv Shade.conv (fun _ => Shade.Light)
    (VastEnum.from_int 5) (by decide)

/-- C4: when the conversion pair is lawful (decoding inverts encoding, the
contract the externally derived conversions satisfy), encoding a variant
with `from_variant` and decoding it with `variant` yields the same variant
back: `from_variant(e).variant() == Some(e)`. -/
theorem from_variant_variant_roundtrip {Enum Repr : Type}
    (c : EnumConv Enum Repr) (hc : c.Lawful) (e : Enum) :
    VastEnum.variant c (VastEnum.from_variant c e) = some e := by
  rw [VastEnum.variant, VastEnum.from_variant]
  exact hc e

/-- Witness for C4 on the `Color` instance at `Yellow`. -/
theorem from_variant_variant_roundtrip_witness :
    VastEnum.variant Color.conv (VastEnum.from_variant Color.conv Color.Yellow)
      = some Color.Yellow :=
  from_variant_variant_roundtrip Color.conv (fun e => by cases e <;> rfl)
    Color.Yellow

/-- C5: when the stored integer decodes to variant `e` (so
`is_valid() == true`) and the output conversion pair is lawful, `map`
decodes, applies `f`, and re-encodes, so the output wrapper decodes to
`f(e)`: `w.map(f).variant() == Some(f(e))`. -/
theorem map_valid_variant {Enum EnumOut Repr : Type}
    (c : EnumConv Enum Repr) (cOut : EnumConv EnumOut Repr) (hOut : cOut.Lawful)
    (f : Enum → EnumOut) (w : VastEnum Enum Repr) (e : Enum)
    (h : VastEnum.variant c w = some e) :
    VastEnum.variant cOut (VastEnum.map c cOut f w) = some (f e) := by
  rw [VastEnum.map, h]
  exact from_variant_variant_roundtrip cOut hOut (f e)

/-- Witness for C5: `from_int(1)` over `Color` decodes to `Yellow`, and
mapping every variant to `Shade.Dark` yields a wrapper decoding to
`Shade.Dark`. -/
theorem map_valid_variant_witness :
    VastEnum.variant Shade.conv
      (VastEnum.map Color.conv Shade.conv (fun _ => Shade.Dark)
        (VastEnum.from_int 1)) = some Shade.Dark :=
  map_valid_variant Color.conv Shade.conv (fun e => by cases e <;> rfl)
    (fun _ => Shade.Dark) (VastEnum.from_int 1) Color.Yellow (by decide)

/-- C6: `is_valid()` is literally `variant().is_some()`, and `variant()`
caches nothing — it re-runs the partial conversion on the live stored
value, so after a write through `int_mut` the result reflects the new
integer (`variant` of the written wrapper is exactly `try_into` of the
newly written value). -/
theorem is_valid_variant_no_cache {Enum Repr : Type}
    (c : EnumConv Enum Repr) (w : VastEnum Enum Repr) (r : Repr) :
    VastEnum.is_valid c w = (VastEnum.variant c w).isSome ∧
      VastEnum.variant c (VastEnum.write_int w r) = c.try_into r :=
  ⟨rfl, rfl⟩

/-- C7: equality, ordering, and hashing are computed purely from the stored
integer (the `PhantomData` tag contributes nothing), so two wrappers with
the same `Repr` type and equal stored integers — even under different
enumeration tags — compare equal (after the tag-only `cast`), hash
identically, and order exactly as their integers do. -/
theorem eq_hash_ord_ignore_tag {EnumA EnumB Repr : Type} [DecidableEq Repr]
    (hR : Repr → Nat) (cmpR : Repr → Repr → Ordering)
    (wA : VastEnum EnumA Repr) (wB : VastEnum EnumB Repr)
    (h : wA.int = wB.int) :
    VastEnum.beq (VastEnum.cast wA : VastEnum EnumB Repr) wB = true ∧
      VastEnum.hash hR wA = VastEnum.hash hR wB ∧
      VastEnum.cmp cmpR (VastEnum.cast wA : VastEnum EnumB Repr) wB
        = cmpR wA.int wB.int := by
  refine ⟨?_, ?_, rfl⟩
  · rw [VastEnum.beq]
    exact decide_eq_true h
  · exact congrArg hR h

/-- Witness for C7: wrappers over `Color` and `Shade` both holding `7`. -/
theorem eq_hash_ord_ignore_tag_witness :
    VastEnum.beq
        (VastEnum.cast (VastEnum.from_int 7 : VastEnum Color Nat) : VastEnum Shade Nat)
        (VastEnum.from_int 7) = true ∧
      VastEnum.hash id (VastEnum.from_int 7 : VastEnum Color Nat)
          = VastEnum.hash id (VastEnum.from_int 7 : VastEnum Shade Nat) ∧
      VastEnum.cmp compare
          (VastEnum.cast (VastEnum.from_int 7 : VastEnum Color Nat) : VastEnum Shade Nat)
          (VastEnum.from_int 7)
        = compare (VastEnum.from_int 7 : VastEnum Color Nat).int
            (VastEnum.from_int 7 : VastEnum Shade Nat).int :=
  eq_hash_ord_ignore_tag id compare (VastEnum.from_int 7) (VastEnum.from_int 7)
    rfl

/-- C8: in the panic-freedom model (where any panic, abort, or throw is the
`Except.error` branch of `RustM`), every operation of the crate returns
normally on every input — each monadic translation yields `Except.ok` of
the pure result — and the only fallibility in the system is the
`Option`-valued decode inside `variant`, which surfaces as a normal `none`
return, never as an error. -/
theorem total_except_decode {Enum EnumNew EnumOut Repr : Type} [DecidableEq Repr]
    (c : EnumConv Enum Repr) (cOut : EnumConv EnumOut Repr)
    (hR : Repr → Nat) (cmpR : Repr → Repr → Ordering)
    (showR : Repr → String) (showE : Enum → String)
    (d r : Repr) (e : Enum) (f : Enum → EnumOut) (w b : VastEnum Enum Repr) :
    (VastEnum.from_int_run d : RustM (VastEnum Enum Repr))
        = Except.ok (VastEnum.from_int d) ∧
      VastEnum.int_run w = Except.ok w.int ∧
      VastEnum.write_int_run w r = Except.ok (VastEnum.write_int w r) ∧
      (VastEnum.cast_run w : RustM (VastEnum EnumNew Repr))
        = Except.ok (VastEnum.cast w : VastEnum EnumNew Repr) ∧
      VastEnum.from_variant_run c e = Except.ok (VastEnum.from_variant c e) ∧
      VastEnum.variant_run c w = Except.ok (VastEnum.variant c w) ∧
      VastEnum.is_valid_run c w = Except.ok (VastEnum.is_valid c w) ∧
      VastEnum.map_run c cOut f w = Except.ok (VastEnum.map c cOut f w) ∧
      VastEnum.beq_run w b = Except.ok (VastEnum.beq w b) ∧
      VastEnum.cmp_run cmpR w b = Except.ok (VastEnum.cmp cmpR w b) ∧
      VastEnum.hash_run hR w = Except.ok (VastEnum.hash hR w) ∧
      VastEnum.debug_fmt_run c showR showE w
        = Except.ok (VastEnum.debug_fmt c showR showE w) := by
  refine ⟨rfl, rfl, rfl, rfl, rfl, rfl, rfl, ?_, rfl, rfl, rfl, ?_⟩
  · rw [VastEnum.map_run, VastEnum.map, VastEnum.variant_run]
    cases VastEnum.variant c w <;> rfl
  · rw [VastEnum.debug_fmt_run, VastEnum.debug_fmt, VastEnum.variant_run]
    cases VastEnum.variant c w <;> rfl

/-- C9: serialization (modelled from the spec, since the derive expansion is
not in the source) writes only the raw stored integer — the phantom tag is
skipped and no decoding occurs — and deserializing what was serialized
under the same `(Enum, Repr)` pair reproduces the exact stored integer,
valid discriminant or not; in particular `from_int(5)` round-trips to a
wrapper with `int() == 5`. -/
theorem serde_roundtrip_raw_int {Enum Repr : Type} (w : VastEnum Enum Repr) :
    VastEnum.serialize w = w.int ∧
      (VastEnum.deserialize (VastEnum.serialize w) : VastEnum Enum Repr).int = w.int ∧
      (VastEnum.deserialize
        (VastEnum.serialize (VastEnum.from_int 5 : VastEnum Color Nat))
          : VastEnum Color Nat).int = 5 :=
  ⟨rfl, rfl, rfl⟩

/-- C10: the derived `Default` needs no bound on `Enum` (the model places an
`Inhabited` requirement on `Repr` only); the default wrapper stores
`Repr::default()`, so `default().int() == Repr::default()`, and that
integer is not validated — over `Shade` (whose discriminants are 1 and 2)
the default integer 0 is an invalid discriminant. -/
theorem default_stores_repr_default (Enum Repr : Type) [Inhabited Repr] :
    (VastEnum.default : VastEnum Enum Repr).int = (Inhabited.default : Repr) ∧
      VastEnum.is_valid Shade.conv (VastEnum.default : VastEnum Shade Nat)
        = false :=
  ⟨rfl, rfl⟩
